import Mathlib

/-!
Shallow embedding of the provisioning and telemetry engine of the
Containers-Management repository (scripts/create_container.py and
scripts/monitor.py), together with theorems settling the specification
claims about it.

Python strings are modelled as Lean `String` (lists of characters where
character-level manipulation matters), dictionaries with optional keys as
`Option`-valued fields, external command execution as an explicit
environment function, and the mutable runtime state (docker networks, host
interfaces, containers) as an explicit `World` record threaded through the
provisioning functions, which also return the list of state-changing
commands they issue.
-/

namespace ContainersManagement

/-- Python `s.lower()`, at the character level. -/
def pyLower (s : String) : String :=
  String.mk (s.toList.map Char.toLower)

/-- Python `s.strip()`: remove leading and trailing whitespace. -/
def pyStrip (s : String) : String :=
  String.mk (((s.toList.dropWhile Char.isWhitespace).reverse.dropWhile
    Char.isWhitespace).reverse)

/-! ## Command Executor: `run_command` (create_container.py, lines 33-42) -/

/-- Result of one external command: exit status and captured streams
(`subprocess.run(..., capture_output=True, text=True)`). -/
structure CmdResult where
  returncode : Int
  stdout : String
  stderr : String
deriving DecidableEq

/-- Python exceptions that the embedded fragment of `run_command` can raise.
`calledProcessError` is what `subprocess.run(check=True)` raises on non-zero
exit; `attributeError` models a failed attribute lookup on a module. -/
inductive PyExc where
  | calledProcessError (cmd : String) (returncode : Int) (stderr : String)
  | attributeError (module attr : String)
deriving DecidableEq

/-- The `run_command` helper of create_container.py (lines 33-42).
Takes the external world as a function `exec` from command strings to
results.  On exit code 0 it returns the stripped stdout and prints nothing.
On a non-zero exit code, `subprocess.run(..., check=True)` raises
`CalledProcessError`; the handler clause is written
`except subprocess.CalledCalledProcessError`, and the `subprocess` module has
no attribute `CalledCalledProcessError`, so evaluating the handler clause
raises `AttributeError` while the original exception is being handled.  The
handler body (the three `print` calls reporting the command, exit code and
stderr, and the re-raise) therefore never runs: the function propagates an
`AttributeError` and prints nothing.  The second component of the result is
the list of lines printed. -/
def run_command (exec : String → CmdResult) (command : String) :
    Except PyExc String × List String :=
  let r := exec command
  if r.returncode = 0 then
    (Except.ok (pyStrip r.stdout), [])
  else
    (Except.error (PyExc.attributeError "subprocess" "CalledCalledProcessError"), [])

/-- Behaviour the specification ascribes to the Command Executor on a
non-zero exit (spec 4.2), stated from the spec's words for comparison with
`run_command`: the call fails with `CommandFailed{command, exit_code,
stderr}` — modelled as `calledProcessError` carrying exactly those three
values — and the captured stderr appears in the printed report. -/
def specCommandFailed (out : Except PyExc String × List String)
    (command : String) (exitCode : Int) (stderr : String) : Prop :=
  out.1 = Except.error (PyExc.calledProcessError command exitCode stderr) ∧
  List.IsInfix stderr.toList (String.join out.2).toList

/-! ## Plan Catalog: `PLANS` (create_container.py, lines 20-25) -/

/-- One entry of the `PLANS` dictionary. -/
structure PlanSpec where
  cpu : String
  mem : String
  dockerfile : String
deriving DecidableEq

/-- The `PLANS` dictionary (create_container.py, lines 20-25), as a total
function returning `none` on keys not present. -/
def PLANS (p : String) : Option PlanSpec :=
  if p = "vStart" then some ⟨"1", "4g", "Dockerfile.vStart"⟩
  else if p = "vProfessional" then some ⟨"2", "8g", "Dockerfile.vProfessional"⟩
  else if p = "vPopular" then some ⟨"4", "16g", "Dockerfile.vPopular"⟩
  else if p = "vStable" then some ⟨"8", "32g", "Dockerfile.vStable"⟩
  else none

/-! ## Gateway derivation (create_container.py, lines 54-58)

`base_ip = subnet_cidr.split("/")[0].rsplit(".", 1)[0]` and
`gateway_ip = f"{base_ip}.1/28"`, modelled at the character-list level. -/

/-- Python `s.split("/")[0]`: the longest prefix free of `/`. -/
def splitSlashHead (s : List Char) : List Char :=
  s.takeWhile (fun c => c ≠ '/')

/-- Python `s.rsplit(".", 1)[0]`: everything before the last `.`, or the
whole string when there is no `.`. -/
def rsplitDotHead (s : List Char) : List Char :=
  match s.reverse.dropWhile (fun c => c ≠ '.') with
  | [] => s
  | _ :: rest => rest.reverse

/-- Character-level gateway derivation of `create_host_interface`
(lines 57-58): `f"{base_ip}.1/28"` where
`base_ip = subnet_cidr.split("/")[0].rsplit(".", 1)[0]`. -/
def gatewayChars (subnet_cidr : List Char) : List Char :=
  rsplitDotHead (splitSlashHead subnet_cidr) ++ ['.', '1', '/', '2', '8']

/-- The `gateway_ip` value computed by `create_host_interface`, on `String`. -/
def gateway_ip (subnet_cidr : String) : String :=
  String.mk (gatewayChars subnet_cidr.toList)

/-! ## Provisioning state machine (create_container.py, lines 45-177)

The mutable external state (docker networks, host interfaces, containers) is
a `World`; each provisioning function returns the updated world and the list
of state-changing commands it issued, in order.  The existence queries of
the source (`docker network ls --filter name=^{name}$ -q`,
`ip addr show {iface}`, `docker ps -a --filter name=^{name}$ -q`) are
modelled as reads of the corresponding `World` field; the anchored regex
filters are exact-name matches. -/

/-- A state-changing step of the provisioning scripts, in issue order. -/
inductive Event where
  | buildImage (tag dockerfile : String)
  | makeDirs (path : String)
  | ipLinkAdd (iface : String)
  | ipAddrAdd (gw iface : String)
  | ipLinkSetUp (iface : String)
  | networkCreate (name : String) (subnet : Option String)
  | removeContainer (name : String)
  | dockerRun (name domain cpu mem network image : String)
deriving DecidableEq

/-- Runtime and host state visible to the provisioning scripts. -/
structure World where
  networks : List String
  interfaces : List String
  containers : List String
deriving DecidableEq

/-- The `create_host_interface` function (lines 54-71): derive the gateway
address, then query `ip addr show {interface_name}`; when the interface is
absent, create a dummy link, assign the gateway address and bring the link
up. -/
def create_host_interface (w : World) (subnet_cidr : String)
    (interface_name : String) : World × List Event :=
  let gw := gateway_ip subnet_cidr
  if interface_name ∈ w.interfaces then
    (w, [])
  else
    ({ w with interfaces := interface_name :: w.interfaces },
     [Event.ipLinkAdd interface_name, Event.ipAddrAdd gw interface_name,
      Event.ipLinkSetUp interface_name])

/-- The `create_docker_network` function (lines 74-89): query
`docker network ls --filter name=^{network_name}$ -q`; when no network of
that exact name exists, create a bridge network, first creating the host
interface `docknet0` when a subnet was requested. -/
def create_docker_network (w : World) (network_name : String)
    (subnet_cidr : Option String) : World × List Event :=
  if network_name ∈ w.networks then
    (w, [])
  else
    match subnet_cidr with
    | none =>
        ({ w with networks := network_name :: w.networks },
         [Event.networkCreate network_name none])
    | some sub =>
        let s := create_host_interface w sub "docknet0"
        ({ s.1 with networks := network_name :: s.1.networks },
         s.2 ++ [Event.networkCreate network_name (some sub)])

/-- The `remove_existing_container` function (lines 92-103): query
`docker ps -a --filter name=^{name}$ -q`; when a container of that exact
name exists, force-remove it. -/
def remove_existing_container (w : World) (name : String) :
    World × List Event :=
  if name ∈ w.containers then
    ({ w with containers := w.containers.erase name },
     [Event.removeContainer name])
  else
    (w, [])

/-- The image tag derived by `build_image` (line 47):
`f"hosting:{plan.lower()}"`. -/
def build_image_tag (plan : String) : String :=
  "hosting:" ++ pyLower plan

/-- The `build_image` function (lines 45-51): always issue a
`docker build` of the plan's Dockerfile and return the tag.  The
`PLANS[plan]` lookup is passed in by the caller, which has already checked
membership. -/
def build_image (plan : String) (ps : PlanSpec) : String × List Event :=
  (build_image_tag plan, [Event.buildImage (build_image_tag plan) ps.dockerfile])

/-- The operator-supplied inputs read by `create_container`
(lines 109-126).  An empty `subnet` string is Python-falsy and stands for
"no subnet requested" (line 141: `subnet if subnet else None`). -/
structure Inputs where
  plan : String
  domain : String
  cname : String
  username : String
  subnet : String
  network_name : String
deriving DecidableEq

/-- The `create_container` flow (lines 106-208), from the plan-validity
check onward: on an unknown plan, print and return with no side effect;
otherwise build the image, create `/srv/{cname}/www`, create the network
(with the subnet when one was given), remove any same-named container, and
run the new container with the plan's cpu/mem limits.  Port numbers,
credentials and the volume/environment flags of the `docker run` command do
not affect any state transition modelled here and are elided from the
`dockerRun` event. -/
def create_container (w : World) (inp : Inputs) : World × List Event :=
  match PLANS inp.plan with
  | none => (w, [])
  | some ps =>
      let b := build_image inp.plan ps
      let web_dir := "/srv/" ++ inp.cname ++ "/www"
      let n := create_docker_network w inp.network_name
        (if inp.subnet = "" then none else some inp.subnet)
      let r := remove_existing_container n.1 inp.cname
      ({ r.1 with containers := inp.cname :: r.1.containers },
       b.2 ++ [Event.makeDirs web_dir] ++ n.2 ++ r.2 ++
         [Event.dockerRun inp.cname inp.domain ps.cpu ps.mem inp.network_name b.1])

/-! ## Stats Collector (monitor.py, lines 25-97)

Dictionaries with possibly-missing keys become `Option`-valued fields; the
division-producing Python floats become rationals. -/

/-- The fields of a `cpu_stats` / `precpu_stats` dictionary that
`collect_container_stats` reads.  `percpu_usage`, `system_cpu_usage` and
`online_cpus` may be absent. -/
structure CpuStats where
  cpu_usage_total : Nat
  percpu_usage : Option (List Nat)
  system_cpu_usage : Option Nat
  online_cpus : Option Nat
deriving DecidableEq

/-- The fields of one `c.stats(stream=False)` snapshot that
`collect_container_stats` reads.  `cpu_stats = none` models an absent or
empty (Python-falsy) `cpu_stats` dictionary, likewise `precpu_stats`;
`memory_usage` and `memory_limit` are the `usage` and `limit` keys of
`memory_stats`, absent keys modelled as `none`. -/
structure Stats where
  cpu_stats : Option CpuStats
  precpu_stats : Option CpuStats
  memory_usage : Option Nat
  memory_limit : Option Nat
deriving DecidableEq

/-- Line 56: `cpu_stats.get("online_cpus") or
len(cpu_stats["cpu_usage"].get("percpu_usage", [])) or 1`.  Python `or`
takes the first truthy operand; a missing key and the number 0 are both
falsy, as is an empty list. -/
def online_cpus (reported : Option Nat) (percpu : Option (List Nat)) : Nat :=
  if reported.getD 0 ≠ 0 then reported.getD 0
  else if (percpu.getD []).length ≠ 0 then (percpu.getD []).length
  else 1

/-- Lines 54-58: the CPU-percentage computation from the two counter
deltas and the online-cpu count.  `cpu_percent` is initialised to `0.0` and
only overwritten when `system_cpu_delta > 0 and online_cpus > 0`. -/
def cpu_percent_calc (cpu_delta system_cpu_delta : Int) (cpus : Nat) : ℚ :=
  if 0 < system_cpu_delta ∧ 0 < cpus then
    ((cpu_delta : ℚ) / (system_cpu_delta : ℚ)) * (cpus : ℚ) * 100
  else 0

/-- Lines 50-58 assembled over a snapshot: both `cpu_stats` and
`precpu_stats` must be truthy, the deltas are differences of the cumulative
counters (`system_cpu_usage` defaulting to 0 when absent). -/
def cpu_percent_of (st : Stats) : ℚ :=
  match st.cpu_stats, st.precpu_stats with
  | some cs, some ps =>
      cpu_percent_calc
        ((cs.cpu_usage_total : Int) - (ps.cpu_usage_total : Int))
        ((cs.system_cpu_usage.getD 0 : Int) - (ps.system_cpu_usage.getD 0 : Int))
        (online_cpus cs.online_cpus cs.percpu_usage)
  | _, _ => 0

/-- Line 59: `stats.get("memory_stats", {}).get("usage", 0)`. -/
def mem_usage_of (st : Stats) : Nat :=
  st.memory_usage.getD 0

/-- Line 60: `stats.get("memory_stats", {}).get("limit", 1)`. -/
def mem_limit_of (st : Stats) : Nat :=
  st.memory_limit.getD 1

/-- Line 61: `(mem_usage / mem_limit) * 100 if mem_limit else 0`. -/
def mem_percent_calc (usage limit : Nat) : ℚ :=
  if limit ≠ 0 then ((usage : ℚ) / (limit : ℚ)) * 100 else 0

/-- Lines 59-61 assembled over a snapshot. -/
def mem_percent_of (st : Stats) : ℚ :=
  mem_percent_calc (mem_usage_of st) (mem_limit_of st)

/-- Python `round(x, 2)`: round to two decimal places, ties to even. -/
def pyRound2 (x : ℚ) : ℚ :=
  (Int.floor (x * 100) +
    (if x * 100 - Int.floor (x * 100) < 1 / 2 then 0
     else if 1 / 2 < x * 100 - Int.floor (x * 100) then 1
     else if Int.floor (x * 100) % 2 = 0 then 0 else 1) : ℤ) / 100

/-- One entry of a port binding list: the `HostPort` value, already taken
through `int(...)`; `none` models a missing key or a value `int` rejects
(both land in the inner `except Exception: pass`). -/
structure PortBinding where
  hostPort : Option Int
deriving DecidableEq

/-- The `NetworkSettings.Ports` attribute: `none` for absent, otherwise a
list of `(port_name, port_binding)` pairs where the binding may be `None`
(modelled `none`) or a list of `PortBinding`s. -/
def PortsAttr : Type :=
  Option (List (String × Option (List PortBinding)))

instance : DecidableEq PortsAttr := by
  unfold PortsAttr
  infer_instance

/-- Lines 71-81: build the port descriptions.  A falsy `Ports` dictionary
(absent or empty) contributes the single entry "N/A"; a falsy binding is
skipped; a binding whose first element has no usable `HostPort` is skipped
by the inner handler; otherwise `f"{port_name}->{host_port}"` is appended. -/
def port_entries (ports : PortsAttr) : List String :=
  match ports with
  | none => ["N/A"]
  | some [] => ["N/A"]
  | some l =>
      l.filterMap fun pb =>
        match pb.2 with
        | none => none
        | some [] => none
        | some (b :: _) =>
            match b.hostPort with
            | none => none
            | some hp => some (pb.1 ++ "->" ++ toString hp)

/-- One row of the report assembled at lines 84-94. -/
structure Row where
  container_id : String
  container_name : String
  status : String
  cpu_percent : ℚ
  mem_percent : ℚ
  mem_usage : Nat
  mem_limit : Nat
  ports : String
deriving DecidableEq

deriving instance DecidableEq for Except

/-- A container as seen by the collection loop: metadata plus the outcome
`statsResult` that the call `c.stats(stream=False)` would have (an
`Except.error` models the call raising, e.g. the container vanishing
between listing and stat). -/
structure Container where
  id : String
  name : String
  status : String
  statsResult : Except String Stats
  ports_attr : PortsAttr
deriving DecidableEq

/-- The body of the `for c in containers` loop (lines 45-96) for one
container.  A running container's stats call is made and may raise, in
which case the surrounding `except` logs and skips the row (`none`); a
non-running container never touches `statsResult` and reports zeros.  The
row records `c.id[:12]`, the name, the status, the two rounded
percentages, the raw memory numbers, and the joined port list. -/
def containerRow (c : Container) : Option Row :=
  if c.status = "running" then
    match c.statsResult with
    | Except.error _ => none
    | Except.ok st =>
        some { container_id := String.mk (c.id.toList.take 12)
               container_name := c.name
               status := c.status
               cpu_percent := pyRound2 (cpu_percent_of st)
               mem_percent := pyRound2 (mem_percent_of st)
               mem_usage := mem_usage_of st
               mem_limit := mem_limit_of st
               ports := String.intercalate ", " (port_entries c.ports_attr) }
  else
    some { container_id := String.mk (c.id.toList.take 12)
           container_name := c.name
           status := c.status
           cpu_percent := pyRound2 0
           mem_percent := pyRound2 0
           mem_usage := 0
           mem_limit := 0
           ports := String.intercalate ", " (port_entries c.ports_attr) }

/-- The runtime client abstraction: `docker_client.containers.list(all=...)`. -/
structure Client where
  containers : Bool → List Container

/-- The `collect_container_stats` function (lines 35-97).  The module-level
`docker_client` (lines 25-29) is `none` when `docker.from_env()` raised
during module initialisation; in that case the function logs and returns
the empty list before listing anything. -/
def collect_container_stats (docker_client : Option Client)
    (all_containers : Bool) : List Row :=
  match docker_client with
  | none => []
  | some cl => (cl.containers all_containers).filterMap containerRow

/-! ## Theorems settling the claims -/

/-- A concrete command environment in which the command "false" exits with
code 1 and stderr "boom", and every other command succeeds. -/
def execFalse : String → CmdResult :=
  fun c => if c = "false" then ⟨1, "", "boom"⟩ else ⟨0, "", ""⟩

/-- C1: on a command exiting non-zero (here "false", exit code 1, stderr
"boom"), `run_command` is claimed to fail with
`CommandFailed{command, exit_code, stderr}` and to report the stderr.  In
the code the handler clause names `subprocess.CalledCalledProcessError`, an
attribute the `subprocess` module does not have, so the call instead
propagates an `AttributeError`, prints nothing, and no error value carrying
the command, exit code and stderr is produced: the claimed behaviour
(`specCommandFailed`) fails, though a failure is still propagated upward. -/
theorem run_command_nonzero_exit_bug :
    (run_command execFalse "false").1 =
      Except.error (PyExc.attributeError "subprocess" "CalledCalledProcessError") ∧
    (run_command execFalse "false").2 = [] ∧
    ¬ specCommandFailed (run_command execFalse "false") "false" 1 "boom" :=
  ⟨rfl, rfl, fun hc => absurd hc.1 (by decide)⟩

/-- C3: the CPU-percentage computation of `collect_container_stats`
satisfies the claimed formula
`cpu_percent = (cpu_usage_delta / system_cpu_delta) * online_cpu_count * 100`
whenever `system_cpu_delta > 0` (and the cpu count is positive, which the
fallback guarantees), reports 0 whenever `system_cpu_delta ≤ 0`, falls back
to the length of the per-core usage list and then to 1 when `online_cpus`
is not reported, and yields 80 on the documented concrete case. -/
theorem cpu_percent_formula_spec :
    (∀ (cd sd : Int) (n : Nat), 0 < sd → 0 < n →
        cpu_percent_calc cd sd n = ((cd : ℚ) / (sd : ℚ)) * (n : ℚ) * 100) ∧
    (∀ (cd sd : Int) (n : Nat), sd ≤ 0 → cpu_percent_calc cd sd n = 0) ∧
    (∀ (percpu : List Nat),
        online_cpus none (some percpu) =
          if percpu.length = 0 then 1 else percpu.length) ∧
    online_cpus none none = 1 ∧
    online_cpus (some 4) none = 4 ∧
    cpu_percent_calc 200 1000 4 = 80 := by
  refine ⟨?_, ?_, ?_, by decide, by decide, ?_⟩
  · intro cd sd n h1 h2
    simp [cpu_percent_calc, h1, h2]
  · intro cd sd n h
    rw [cpu_percent_calc, if_neg]
    intro h12
    exact absurd h12.1 (not_lt.mpr h)
  · intro percpu
    by_cases h : percpu.length = 0 <;> simp [online_cpus, h]
  · norm_num [cpu_percent_calc]

/-- Witness for C3: the formula branch at `cpu_usage_delta = 200`,
`system_cpu_delta = 1000`, `online_cpus = 4` and the guard branch at
`system_cpu_delta = -3`. -/
theorem cpu_percent_formula_witness :
    cpu_percent_calc 200 1000 4 = ((200 : ℚ) / (1000 : ℚ)) * (4 : ℚ) * 100 ∧
    cpu_percent_calc 7 (-3) 2 = 0 :=
  ⟨cpu_percent_formula_spec.1 200 1000 4 (by norm_num) (by norm_num),
   cpu_percent_formula_spec.2.1 7 (-3) 2 (by norm_num)⟩

/-- C4: the memory-percentage computation of `collect_container_stats`
satisfies `mem_percent = (usage / limit) * 100` for a non-zero limit,
reports 0 when the limit is 0, and yields 50 on the documented concrete
case `usage = 512000000`, `limit = 1024000000`. -/
theorem mem_percent_formula_spec :
    (∀ (u l : Nat), l ≠ 0 →
        mem_percent_calc u l = ((u : ℚ) / (l : ℚ)) * 100) ∧
    (∀ (u : Nat), mem_percent_calc u 0 = 0) ∧
    mem_percent_calc 512000000 1024000000 = 50 := by
  refine ⟨?_, ?_, ?_⟩
  · intro u l h
    simp [mem_percent_calc, h]
  · intro u
    simp [mem_percent_calc]
  · norm_num [mem_percent_calc]

/-- Witness for C4: the formula branch at `usage = 512000000`,
`limit = 1024000000`. -/
theorem mem_percent_formula_witness :
    mem_percent_calc 512000000 1024000000 =
      ((512000000 : ℚ) / (1024000000 : ℚ)) * 100 :=
  mem_percent_formula_spec.1 512000000 1024000000 (by norm_num)

/-- C9: when the memory snapshot has no `limit` key at all, the code's
`.get("limit", 1)` substitutes the default limit 1 byte, so the reported
memory percentage is `usage * 100` rather than the 0 that a reported limit
of 0 would give. -/
theorem mem_limit_default_spec (st : Stats) (h : st.memory_limit = none) :
    mem_limit_of st = 1 ∧
    mem_percent_of st = (mem_usage_of st : ℚ) * 100 := by
  constructor
  · simp [mem_limit_of, h]
  · simp [mem_percent_of, mem_percent_calc, mem_limit_of, h]

/-- Witness for C9: a snapshot with usage 7 and no limit key reports
`7 * 100`. -/
theorem mem_limit_default_witness :
    ({ cpu_stats := none, precpu_stats := none, memory_usage := some 7,
       memory_limit := none } : Stats).memory_limit = none ∧
    mem_percent_of
      { cpu_stats := none, precpu_stats := none, memory_usage := some 7,
        memory_limit := none } =
      (mem_usage_of
        { cpu_stats := none, precpu_stats := none, memory_usage := some 7,
          memory_limit := none } : ℚ) * 100 :=
  ⟨rfl, (mem_limit_default_spec _ rfl).2⟩

/-- C10: when `docker.from_env()` raised at import time the module-level
client is `None`, and `collect_container_stats` returns the empty list for
either value of the `all_containers` flag, without raising. -/
theorem collect_no_client_spec :
    ∀ (all_containers : Bool),
      collect_container_stats none all_containers = [] :=
  fun _ => rfl

/-- Rounding zero to two decimals gives zero. -/
theorem pyRound2_zero : pyRound2 0 = 0 := by
  norm_num [pyRound2]

/-- C8: for a container whose status is not "running",
`collect_container_stats` reports 0 for the CPU percentage, the memory
percentage, the memory usage and the memory limit, produces the row (it
does not raise), and never touches the live counter stream: the row is the
same whatever the stats call would have returned, including when it would
have raised. -/
theorem non_running_zero_spec (c : Container) (h : c.status ≠ "running") :
    containerRow c =
      some { container_id := String.mk (c.id.toList.take 12)
             container_name := c.name
             status := c.status
             cpu_percent := 0
             mem_percent := 0
             mem_usage := 0
             mem_limit := 0
             ports := String.intercalate ", " (port_entries c.ports_attr) } ∧
    ∀ (st : Except String Stats),
      containerRow { c with statsResult := st } = containerRow c := by
  constructor
  · simp [containerRow, h, pyRound2_zero]
  · intro st
    simp [containerRow, h]

/-- Witness for C8: an exited container whose stats call would have raised
still yields the all-zero row. -/
theorem non_running_zero_witness :
    ({ id := "0123456789abcdef", name := "web1", status := "exited",
       statsResult := Except.error "container vanished",
       ports_attr := none } : Container).status ≠ "running" ∧
    containerRow
      { id := "0123456789abcdef", name := "web1", status := "exited",
        statsResult := Except.error "container vanished",
        ports_attr := none } =
      some { container_id := "0123456789ab", container_name := "web1",
             status := "exited", cpu_percent := 0, mem_percent := 0,
             mem_usage := 0, mem_limit := 0, ports := "N/A" } := by
  refine ⟨by decide, ?_⟩
  rw [(non_running_zero_spec
    { id := "0123456789abcdef", name := "web1", status := "exited",
      statsResult := Except.error "container vanished",
      ports_attr := none } (by decide)).1]
  decide

/-- C7: the plan catalog maps the four valid identifiers to exactly the
documented cpu/mem values, maps every other string to no entry, and on an
unknown plan `create_container` returns with the world unchanged and an
empty command trace: no image build, no directory creation, no network or
container command. -/
theorem plans_catalog_spec :
    PLANS "vStart" = some ⟨"1", "4g", "Dockerfile.vStart"⟩ ∧
    PLANS "vProfessional" = some ⟨"2", "8g", "Dockerfile.vProfessional"⟩ ∧
    PLANS "vPopular" = some ⟨"4", "16g", "Dockerfile.vPopular"⟩ ∧
    PLANS "vStable" = some ⟨"8", "32g", "Dockerfile.vStable"⟩ ∧
    (∀ (p : String), p ≠ "vStart" → p ≠ "vProfessional" → p ≠ "vPopular" →
        p ≠ "vStable" → PLANS p = none) ∧
    (∀ (w : World) (inp : Inputs),
        PLANS inp.plan = none → create_container w inp = (w, [])) := by
  refine ⟨by decide, by decide, by decide, by decide, ?_, ?_⟩
  · intro p h1 h2 h3 h4
    simp [PLANS, h1, h2, h3, h4]
  · intro w inp h
    simp [create_container, h]

/-- Witness for C7: the unknown identifier "vGold" has no catalog entry and
aborts creation with no command issued. -/
theorem plans_catalog_witness :
    PLANS "vGold" = none ∧
    create_container ⟨[], [], []⟩
      { plan := "vGold", domain := "d", cname := "c", username := "u",
        subnet := "", network_name := "n" } = (⟨[], [], []⟩, []) :=
  ⟨plans_catalog_spec.2.2.2.2.1 "vGold" (by decide) (by decide) (by decide)
      (by decide),
   plans_catalog_spec.2.2.2.2.2 ⟨[], [], []⟩
      { plan := "vGold", domain := "d", cname := "c", username := "u",
        subnet := "", network_name := "n" } (by decide)⟩

/-- When the queried runtime already lists the requested name, the
provisioner changes nothing and issues nothing. -/
theorem create_docker_network_existing (w : World) (network_name : String)
    (subnet_cidr : Option String) (h : network_name ∈ w.networks) :
    create_docker_network w network_name subnet_cidr = (w, []) := by
  simp [create_docker_network, h]

/-- After any call to the provisioner, the requested name is listed. -/
theorem mem_networks_after_create (w : World) (network_name : String)
    (subnet_cidr : Option String) :
    network_name ∈ (create_docker_network w network_name subnet_cidr).1.networks := by
  unfold create_docker_network
  by_cases h : network_name ∈ w.networks
  · simp [h]
  · cases subnet_cidr <;> simp [h]

/-- C6: the Network Provisioner is idempotent.  A second call with the same
name and subnet issues no creation command at all (so across the two calls
the host-interface commands and the network-create command are issued at
most once), and a call whose name the runtime already lists issues zero
creation commands. -/
theorem network_idempotent_spec (w : World) (network_name : String)
    (subnet_cidr : Option String) :
    (create_docker_network (create_docker_network w network_name subnet_cidr).1
        network_name subnet_cidr).2 = [] ∧
    (network_name ∈ w.networks →
        (create_docker_network w network_name subnet_cidr).2 = []) := by
  constructor
  · rw [create_docker_network_existing _ _ _
      (mem_networks_after_create w network_name subnet_cidr)]
  · intro h
    rw [create_docker_network_existing _ _ _ h]

/-- Witness for C6: a fresh world and subnet request, provisioned twice,
issues nothing on the second call; a world already listing "hosting_net"
gets zero commands at once. -/
theorem network_idempotent_witness :
    (create_docker_network
        (create_docker_network ⟨[], [], []⟩ "net1" (some "45.59.132.208/28")).1
        "net1" (some "45.59.132.208/28")).2 = [] ∧
    ("hosting_net" ∈ (⟨["hosting_net"], [], []⟩ : World).networks ∧
      (create_docker_network ⟨["hosting_net"], [], []⟩ "hosting_net" none).2 = []) :=
  ⟨(network_idempotent_spec ⟨[], [], []⟩ "net1" (some "45.59.132.208/28")).1,
   by decide,
   (network_idempotent_spec ⟨["hosting_net"], [], []⟩ "hosting_net" none).2
      (by decide)⟩

/-- C2 counterexample: with a valid plan the very first issued step is the
image build, and the directory-creation step comes only after it — at the
concrete request below the build event sits strictly before the `makedirs`
event in the trace, refuting the claim that image build never happens
before the directory-creation step. -/
theorem launcher_order_counterexample :
    Event.buildImage "hosting:vstart" "Dockerfile.vStart" ∈
      (create_container ⟨[], [], []⟩
        { plan := "vStart", domain := "example.com", cname := "c1",
          username := "u", subnet := "", network_name := "net1" }).2 ∧
    Event.makeDirs "/srv/c1/www" ∈
      (create_container ⟨[], [], []⟩
        { plan := "vStart", domain := "example.com", cname := "c1",
          username := "u", subnet := "", network_name := "net1" }).2 ∧
    List.indexOf (Event.buildImage "hosting:vstart" "Dockerfile.vStart")
      (create_container ⟨[], [], []⟩
        { plan := "vStart", domain := "example.com", cname := "c1",
          username := "u", subnet := "", network_name := "net1" }).2 <
    List.indexOf (Event.makeDirs "/srv/c1/www")
      (create_container ⟨[], [], []⟩
        { plan := "vStart", domain := "example.com", cname := "c1",
          username := "u", subnet := "", network_name := "net1" }).2 := by
  refine ⟨by decide, by decide, by decide⟩

/-- C2 amended: for every request with a valid plan the trace is exactly
the image-build event, then the directory-creation event, then the network
provisioning commands, then the stale-container removal, then the container
run — so directory creation precedes network provisioning, but the image
build precedes directory creation. -/
theorem launcher_order_amended (w : World) (inp : Inputs) (ps : PlanSpec)
    (h : PLANS inp.plan = some ps) :
    (create_container w inp).2 =
      Event.buildImage (build_image_tag inp.plan) ps.dockerfile ::
      Event.makeDirs ("/srv/" ++ inp.cname ++ "/www") ::
      ((create_docker_network w inp.network_name
          (if inp.subnet = "" then none else some inp.subnet)).2 ++
        ((remove_existing_container
            (create_docker_network w inp.network_name
              (if inp.subnet = "" then none else some inp.subnet)).1
            inp.cname).2 ++
          [Event.dockerRun inp.cname inp.domain ps.cpu ps.mem inp.network_name
            (build_image_tag inp.plan)])) := by
  simp [create_container, h, build_image]

/-- Witness for C2's amended theorem: the concrete "vStart" request above. -/
theorem launcher_order_witness :
    PLANS "vStart" = some ⟨"1", "4g", "Dockerfile.vStart"⟩ ∧
    (create_container ⟨[], [], []⟩
        { plan := "vStart", domain := "example.com", cname := "c1",
          username := "u", subnet := "", network_name := "net1" }).2 =
      Event.buildImage (build_image_tag "vStart") "Dockerfile.vStart" ::
      Event.makeDirs "/srv/c1/www" ::
      ((create_docker_network ⟨[], [], []⟩ "net1" none).2 ++
        ((remove_existing_container
            (create_docker_network ⟨[], [], []⟩ "net1" none).1 "c1").2 ++
          [Event.dockerRun "c1" "example.com" "1" "4g" "net1"
            (build_image_tag "vStart")])) :=
  ⟨by decide,
   launcher_order_amended ⟨[], [], []⟩
      { plan := "vStart", domain := "example.com", cname := "c1",
        username := "u", subnet := "", network_name := "net1" }
      ⟨"1", "4g", "Dockerfile.vStart"⟩ (by decide)⟩

/-- `takeWhile` walks through a prefix whose elements all satisfy the
predicate. -/
theorem takeWhile_append_of_all {p : Char → Bool} (xs ys : List Char)
    (h : ∀ c ∈ xs, p c) :
    (xs ++ ys).takeWhile p = xs ++ ys.takeWhile p := by
  induction xs with
  | nil => simp
  | cons a l ih =>
      rw [List.cons_append, List.takeWhile_cons,
        if_pos (h a (List.mem_cons_self a l)),
        ih fun c hc => h c (List.mem_cons_of_mem a hc), List.cons_append]

/-- `dropWhile` skips over a prefix whose elements all satisfy the
predicate. -/
theorem dropWhile_append_of_all {p : Char → Bool} (xs ys : List Char)
    (h : ∀ c ∈ xs, p c) :
    (xs ++ ys).dropWhile p = ys.dropWhile p := by
  induction xs with
  | nil => simp
  | cons a l ih =>
      simp only [List.cons_append, List.dropWhile_cons,
        h a (List.mem_cons_self a l), if_pos]
      exact ih fun c hc => h c (List.mem_cons_of_mem a hc)

/-- Python `split("/")[0]` on a string of the form `xs ++ "/" ++ ys` with
no slash in `xs` yields `xs`. -/
theorem splitSlashHead_eq (xs ys : List Char) (h : '/' ∉ xs) :
    splitSlashHead (xs ++ '/' :: ys) = xs := by
  unfold splitSlashHead
  rw [takeWhile_append_of_all xs ('/' :: ys)
    (fun c hc => by simp [ne_of_mem_of_not_mem hc h])]
  simp

/-- Python `rsplit(".", 1)[0]` on a string of the form `xs ++ "." ++ ys`
with no dot in `ys` yields `xs`. -/
theorem rsplitDotHead_eq (xs ys : List Char) (h : '.' ∉ ys) :
    rsplitDotHead (xs ++ '.' :: ys) = xs := by
  unfold rsplitDotHead
  rw [List.reverse_append, List.reverse_cons, List.append_assoc,
    dropWhile_append_of_all ys.reverse (['.'] ++ xs.reverse)
      (fun c hc => by
        simp [ne_of_mem_of_not_mem (List.mem_reverse.mp hc) h])]
  simp

/-- C5: for every subnet written as four slash-free octet fields (the
fourth also dot-free) followed by a mask, the gateway derived by
`create_host_interface` is the first three octets joined with ".1" under
the fixed "/28" mask. -/
theorem gateway_derivation_spec (o1 o2 o3 o4 m : List Char)
    (hs1 : '/' ∉ o1) (hs2 : '/' ∉ o2) (hs3 : '/' ∉ o3) (hs4 : '/' ∉ o4)
    (hd4 : '.' ∉ o4) :
    gatewayChars (o1 ++ ['.'] ++ o2 ++ ['.'] ++ o3 ++ ['.'] ++ o4 ++ ['/'] ++ m) =
      o1 ++ ['.'] ++ o2 ++ ['.'] ++ o3 ++ ['.', '1', '/', '2', '8'] := by
  unfold gatewayChars
  rw [show o1 ++ ['.'] ++ o2 ++ ['.'] ++ o3 ++ ['.'] ++ o4 ++ ['/'] ++ m =
      (o1 ++ ['.'] ++ o2 ++ ['.'] ++ o3 ++ ['.'] ++ o4) ++ '/' :: m by
    simp [List.append_assoc]]
  rw [splitSlashHead_eq _ _ (by simp [hs1, hs2, hs3, hs4])]
  rw [show o1 ++ ['.'] ++ o2 ++ ['.'] ++ o3 ++ ['.'] ++ o4 =
      (o1 ++ ['.'] ++ o2 ++ ['.'] ++ o3) ++ '.' :: o4 by
    simp [List.append_assoc]]
  rw [rsplitDotHead_eq _ _ hd4]

/-- Witness for C5: the documented concrete case, at the `String` level:
`45.59.132.208/28` derives `45.59.132.1/28`. -/
theorem gateway_derivation_witness :
    ('/' ∉ ['2', '0', '8']) ∧ ('.' ∉ ['2', '0', '8']) ∧
    gateway_ip "45.59.132.208/28" = "45.59.132.1/28" := by
  refine ⟨by decide, by decide, ?_⟩
  have h := gateway_derivation_spec ['4', '5'] ['5', '9'] ['1', '3', '2']
    ['2', '0', '8'] ['2', '8'] (by decide) (by decide) (by decide) (by decide)
    (by decide)
  unfold gateway_ip
  rw [show "45.59.132.208/28".toList =
      ['4', '5'] ++ ['.'] ++ ['5', '9'] ++ ['.'] ++ ['1', '3', '2'] ++ ['.'] ++
        ['2', '0', '8'] ++ ['/'] ++ ['2', '8'] from by decide]
  rw [h]
  decide

end ContainersManagement
